import Mathlib

/-
  A shallow embedding of the message value model, the marshaling codec and the
  connection-side dispatch of a D-Bus binding (src/src/lib.rs), together with
  proofs of the specified properties.

  The wire message body is modelled as a list of wire elements: a basic element
  carries its type tag and the bits stored on the wire (fetched into a 64-bit
  buffer on read), a string element carries its text, and a container element
  carries its container kind, the signature string it was opened with, and its
  child elements.
-/

namespace DBus

/-- Modelled from the spec: the one-character ASCII wire type codes used by the
transport. The repository's `ffi` module (declared as `mod ffi;` in lib.rs) is
not under src/; per spec §3 a TypeTag is "a one-character code (ASCII)", and
these are the standard D-Bus codes the code refers to as `DBUS_TYPE_*`. -/
def DBUS_TYPE_INVALID : Int := 0

/-- Wire code of arrays: the character a. -/
def DBUS_TYPE_ARRAY : Int := 97

/-- Wire code of booleans: the character b. -/
def DBUS_TYPE_BOOLEAN : Int := 98

/-- Wire code of dict entries: the character e. -/
def DBUS_TYPE_DICT_ENTRY : Int := 101

/-- Wire code of 32-bit signed integers: the character i. -/
def DBUS_TYPE_INT32 : Int := 105

/-- Wire code of 16-bit signed integers: the character n. -/
def DBUS_TYPE_INT16 : Int := 110

/-- Wire code of 16-bit unsigned integers: the character q. -/
def DBUS_TYPE_UINT16 : Int := 113

/-- Wire code of strings: the character s. -/
def DBUS_TYPE_STRING : Int := 115

/-- Wire code of 64-bit unsigned integers: the character t. -/
def DBUS_TYPE_UINT64 : Int := 116

/-- Wire code of 32-bit unsigned integers: the character u. -/
def DBUS_TYPE_UINT32 : Int := 117

/-- Wire code of variants: the character v. -/
def DBUS_TYPE_VARIANT : Int := 118

/-- Wire code of 64-bit signed integers: the character x. -/
def DBUS_TYPE_INT64 : Int := 120

/-- Wire code of bytes: the character y. -/
def DBUS_TYPE_BYTE : Int := 121

/-- The recursive tagged value model, `enum MessageItem` of lib.rs. Machine
integers are embedded as Nat (unsigned) and Int (signed); the payload width of
each Rust variant (u8, i16, ...) is expressed by the `validItem` predicate. -/
inductive MessageItem : Type where
  | Array (elems : List MessageItem) (t : Int)
  | Variant (inner : MessageItem)
  | DictEntry (key : MessageItem) (value : MessageItem)
  | Str (s : String)
  | Bool (b : Bool)
  | Byte (b : Nat)
  | Int16 (x : Int)
  | Int32 (x : Int)
  | Int64 (x : Int)
  | UInt16 (x : Nat)
  | UInt32 (x : Nat)
  | UInt64 (x : Nat)

/-- `MessageItem::array_type` of lib.rs: the wire type tag of a value. -/
def MessageItem.array_type : MessageItem → Int
  | .Str _ => DBUS_TYPE_STRING
  | .Bool _ => DBUS_TYPE_BOOLEAN
  | .Byte _ => DBUS_TYPE_BYTE
  | .Int16 _ => DBUS_TYPE_INT16
  | .Int32 _ => DBUS_TYPE_INT32
  | .Int64 _ => DBUS_TYPE_INT64
  | .UInt16 _ => DBUS_TYPE_UINT16
  | .UInt32 _ => DBUS_TYPE_UINT32
  | .UInt64 _ => DBUS_TYPE_UINT64
  | .Array _ _ => DBUS_TYPE_ARRAY
  | .Variant _ => DBUS_TYPE_VARIANT
  | .DictEntry _ _ => DBUS_TYPE_DICT_ENTRY

/-- One element of a marshalled message body, as seen through the transport's
iterator-cursor (spec §6): a basic element (type tag plus the stored bits), a
string, or a container (array, variant or dict entry) with the signature it
was opened with and its children. -/
inductive WireElem : Type where
  | basic (t : Int) (raw : Nat)
  | string (s : String)
  | container (ct : Int) (sig : Option String) (sub : List WireElem)

/-- Modelled from the spec: scalar wire widths, §4.2 — "Signed/unsigned widths
are 1/16/32/64 bits as declared by the variant; booleans are encoded as a
4-byte-equivalent integer". The width is the number of bits the wire stores
for a basic element of the given tag. -/
def wireWidth (t : Int) : Nat :=
  if t = DBUS_TYPE_BYTE then 8
  else if t = DBUS_TYPE_INT16 ∨ t = DBUS_TYPE_UINT16 then 16
  else if t = DBUS_TYPE_BOOLEAN ∨ t = DBUS_TYPE_INT32 ∨ t = DBUS_TYPE_UINT32 then 32
  else 64

/-- Reinterpretation of the low `w` bits as a two's-complement signed integer:
the effect of Rust's `as i16` / `as i32` / `as i64` casts on the fetched
64-bit buffer in `MessageItem::from_iter`. -/
def toSigned (w : Nat) (r : Nat) : Int :=
  if r < 2 ^ (w - 1) then (r : Int) else (r : Int) - 2 ^ w

/-- The scalar arms of the `match` in `MessageItem::from_iter` (lib.rs lines
239-246): `iter_get_basic` fetches the wire value into a 64-bit buffer
(modelled by `raw`, the wire bits zero-extended) and the `as` casts truncate
it to the variant's width. A boolean is `(c as u32) != 0`. -/
def decode_basic (t : Int) (raw : Nat) : Except String MessageItem :=
  if t = DBUS_TYPE_BOOLEAN then .ok (.Bool (raw % 2 ^ 32 != 0))
  else if t = DBUS_TYPE_BYTE then .ok (.Byte (raw % 2 ^ 8))
  else if t = DBUS_TYPE_INT16 then .ok (.Int16 (toSigned 16 (raw % 2 ^ 16)))
  else if t = DBUS_TYPE_INT32 then .ok (.Int32 (toSigned 32 (raw % 2 ^ 32)))
  else if t = DBUS_TYPE_INT64 then .ok (.Int64 (toSigned 64 (raw % 2 ^ 64)))
  else if t = DBUS_TYPE_UINT16 then .ok (.UInt16 (raw % 2 ^ 16))
  else if t = DBUS_TYPE_UINT32 then .ok (.UInt32 (raw % 2 ^ 32))
  else if t = DBUS_TYPE_UINT64 then .ok (.UInt64 (raw % 2 ^ 64))
  else .error "DBus unsupported message type"

/-- `MessageItem::from_iter` of lib.rs: decode the elements under the cursor
left to right until the end (DBUS_TYPE_INVALID), recursing one level into each
container. A dict-entry container must decode to exactly two elements, a
variant container to exactly one; an array container may decode to any number
of elements and records the first element's tag as its element type, or 0 when
empty. Faults (the Rust code's panics) are `.error` results. -/
def from_iter : List WireElem → Except String (List MessageItem)
  | [] => .ok []
  | .container ct _sig sub :: rest =>
    if ct = DBUS_TYPE_DICT_ENTRY then
      match from_iter sub with
      | .error e => .error e
      | .ok [k, v] =>
        match from_iter rest with
        | .error e => .error e
        | .ok tl => .ok (.DictEntry k v :: tl)
      | .ok _ => .error "DBus dict entry error"
    else if ct = DBUS_TYPE_VARIANT then
      match from_iter sub with
      | .error e => .error e
      | .ok [x] =>
        match from_iter rest with
        | .error e => .error e
        | .ok tl => .ok (.Variant x :: tl)
      | .ok _ => .error "DBus variant error"
    else if ct = DBUS_TYPE_ARRAY then
      match from_iter sub with
      | .error e => .error e
      | .ok a =>
        match from_iter rest with
        | .error e => .error e
        | .ok tl => .ok (.Array a (match a with | [] => 0 | x :: _ => x.array_type) :: tl)
    else .error "DBus unsupported message type"
  | .string s :: rest =>
    match from_iter rest with
    | .error e => .error e
    | .ok tl => .ok (.Str s :: tl)
  | .basic t raw :: rest =>
    match decode_basic t raw with
    | .error e => .error e
    | .ok item =>
      match from_iter rest with
      | .error e => .error e
      | .ok tl => .ok (item :: tl)

/-- The single character `t as u8 as char` used when formatting a signature
string from a type tag, as in `iter_append_array` and `iter_append_variant`. -/
def tagString (t : Int) : String :=
  String.mk [Char.ofNat (t % 256).toNat]

/-- `MessageItem::iter_append_basic` of lib.rs: append a basic value. The
argument is the `v: i64` the Rust code passes; the wire stores its low
`wireWidth t` bits (the transport reads that many bytes from the buffer). -/
def iter_append_basic (t : Int) (v : Int) : WireElem :=
  .basic t (v % (2 : Int) ^ wireWidth t).toNat

/-- The signature computation at the top of `iter_append_array` (lib.rs lines
145-154): when `t <= 0` the first element is inspected — `a[0]` faults on an
empty vector — and a dict-entry first element yields the compound signature
with braces; otherwise the declared tag is used. -/
def atypeOf (a : List MessageItem) (t : Int) : Except String String :=
  if t ≤ 0 then
    match a with
    | [] => .error "index out of bounds: the len is 0 but the index is 0"
    | .DictEntry k v :: _ =>
      .ok ("\x7b" ++ tagString k.array_type ++ tagString v.array_type ++ "\x7d")
    | x :: _ => .ok (tagString x.array_type)
  else .ok (tagString t)

mutual

/-- `MessageItem::iter_append` of lib.rs: marshal one value at the cursor,
producing the wire element it appends. Assertion failures and panics are
`.error` results. -/
def iter_append : MessageItem → Except String WireElem
  | .Str s => .ok (.string s)
  | .Bool b => .ok (iter_append_basic DBUS_TYPE_BOOLEAN (if b then 1 else 0))
  | .Byte b => .ok (iter_append_basic DBUS_TYPE_BYTE (b : Int))
  | .Int16 x => .ok (iter_append_basic DBUS_TYPE_INT16 x)
  | .Int32 x => .ok (iter_append_basic DBUS_TYPE_INT32 x)
  | .Int64 x => .ok (iter_append_basic DBUS_TYPE_INT64 x)
  | .UInt16 x => .ok (iter_append_basic DBUS_TYPE_UINT16 (x : Int))
  | .UInt32 x => .ok (iter_append_basic DBUS_TYPE_UINT32 (x : Int))
  | .UInt64 x => .ok (iter_append_basic DBUS_TYPE_UINT64 (x : Int))
  | .Array b t => iter_append_array b t
  | .Variant b =>
    match iter_append b with
    | .error e => .error e
    | .ok w => .ok (.container DBUS_TYPE_VARIANT (some (tagString b.array_type)) [w])
  | .DictEntry k v =>
    match iter_append k with
    | .error e => .error e
    | .ok wk =>
      match iter_append v with
      | .error e => .error e
      | .ok wv => .ok (.container DBUS_TYPE_DICT_ENTRY none [wk, wv])

/-- `iter_append_array` of lib.rs: compute the element signature (faulting on
an empty array with `t <= 0`), open an array container, append every element
under the assertion `t < 0 || item.array_type() == t`, and close it. -/
def iter_append_array (a : List MessageItem) (t : Int) : Except String WireElem :=
  match atypeOf a t with
  | .error e => .error e
  | .ok atype =>
    match iter_append_items a t with
    | .error e => .error e
    | .ok ws => .ok (.container DBUS_TYPE_ARRAY (some atype) ws)

/-- The `for item in a.iter()` loop body of `iter_append_array`: each element
is checked against the declared tag by `assert!(t < 0 || item.array_type() ==
t)` and then appended. -/
def iter_append_items : List MessageItem → Int → Except String (List WireElem)
  | [], _ => .ok []
  | x :: xs, t =>
    if t < 0 ∨ x.array_type = t then
      match iter_append x with
      | .error e => .error e
      | .ok w =>
        match iter_append_items xs t with
        | .error e => .error e
        | .ok ws => .ok (w :: ws)
    else .error "assertion failed: t < 0 || item.array_type() == t"

end

/-- `MessageItem::copy_to_iter` of lib.rs (the body of
`Message::append_items`): append each value in order. -/
def copy_to_iter : List MessageItem → Except String (List WireElem)
  | [] => .ok []
  | x :: xs =>
    match iter_append x with
    | .error e => .error e
    | .ok w =>
      match copy_to_iter xs with
      | .error e => .error e
      | .ok ws => .ok (w :: ws)

/-- `Message::get_items` of lib.rs, over a message body modelled as the list
of its marshalled top-level elements. Modelled from the spec for the cursor
primitive: `dbus_message_iter_init` returns 0 exactly when the message has no
arguments, in which case `get_items` returns an empty vector rather than
running the decoder. -/
def get_items (body : List WireElem) : Except String (List MessageItem) :=
  match body with
  | [] => .ok []
  | _ => from_iter body

/-- Message kinds (spec §3): the four `DBusMessageType` values the dispatch
code distinguishes. -/
inductive MessageType : Type where
  | MethodCall
  | MethodReturn
  | Error
  | Signal
deriving DecidableEq

/-- An inbound message as the dispatch layer sees it: its kind plus an
identity for its wire buffer (distinct inbound messages carry distinct ids). -/
structure Msg : Type where
  kind : MessageType
  id : Nat
deriving DecidableEq

/-- `enum ConnectionItem` of lib.rs: one item of the dispatch queue /
connection event iterator. -/
inductive ConnectionItem : Type where
  | Nothing
  | MethodCall (m : Msg)
  | Signal (m : Msg)
deriving DecidableEq

/-- The transport's callback verdict: handled, or declined so the transport
routes the message elsewhere (reply correlation, object-path dispatch). -/
inductive DBusHandlerResult : Type where
  | Handled
  | NotYetHandled
deriving DecidableEq

/-- `filter_message_cb` of lib.rs: the filter pushes a Signal-kind message
onto the dispatch queue and handles it; every other kind is declined
(`NotYetHandled`). The queue is `pending_items` of `IConnection`. -/
def filter_message_cb (queue : List ConnectionItem) (m : Msg) :
    List ConnectionItem × DBusHandlerResult :=
  match m.kind with
  | .Signal => (queue ++ [.Signal m], .Handled)
  | _ => (queue, .NotYetHandled)

/-- `object_path_message_cb` of lib.rs: the object-path handler pushes the
message onto the dispatch queue as a MethodCall item and handles it. -/
def object_path_message_cb (queue : List ConnectionItem) (m : Msg) :
    List ConnectionItem × DBusHandlerResult :=
  (queue ++ [.MethodCall m], .Handled)

/-- Modelled from the spec: the transport's delivery of one inbound message
(§4.4, §6). The filter callback runs first; if it declines, a MethodCall
addressed to a registered object path is handed to the object-path callback,
and any other declined kind (MethodReturn, Error) is left to the transport's
own reply correlation and never reaches the queue. -/
def deliver (registered : Bool) (queue : List ConnectionItem) (m : Msg) :
    List ConnectionItem :=
  match filter_message_cb queue m with
  | (q, .Handled) => q
  | (q, .NotYetHandled) =>
    if registered ∧ m.kind = .MethodCall then (object_path_message_cb q m).1 else q

/-- Delivery of a sequence of inbound messages in wire arrival order. -/
def deliverAll (registered : Bool) (queue : List ConnectionItem) (ms : List Msg) :
    List ConnectionItem :=
  ms.foldl (deliver registered) queue

/-- The classification the two callbacks jointly perform on one inbound
message: Signal-kind messages become Signal items, MethodCall-kind messages
become MethodCall items when a path is registered, and everything else is
never queued. -/
def classify (registered : Bool) (m : Msg) : Option ConnectionItem :=
  match m.kind with
  | .Signal => some (.Signal m)
  | .MethodCall => if registered then some (.MethodCall m) else none
  | _ => none

/-- `ConnectionItems::next` of lib.rs, for one poll. The blocking
`dbus_connection_read_write_dispatch` step is modelled from the spec (§4.4,
§6) by its observable effects during this poll: `stepPush`, the items the
callbacks pushed while it ran, and `alive`, its return value (false exactly
when the connection closed). The result is the yielded value (`none` = the
iterator reports no more items) together with the remaining queue. -/
def connection_items_next (queue stepPush : List ConnectionItem) (alive : Bool) :
    Option ConnectionItem × List ConnectionItem :=
  match queue with
  | i :: rest => (some i, rest)
  | [] =>
    match stepPush with
    | i :: rest => (some i, rest)
    | [] => if alive then (some .Nothing, []) else (none, [])

mutual

/-- The class of values the round-trip property quantifies over: every scalar
payload fits the width of its Rust machine type, and every array is non-empty
with a positive declared element type shared by all its elements. -/
def validItem : MessageItem → Bool
  | .Array elems t => decide (0 < t) && !elems.isEmpty && validElems elems t
  | .Variant inner => validItem inner
  | .DictEntry k v => validItem k && validItem v
  | .Str _ => true
  | .Bool _ => true
  | .Byte b => decide (b < 2 ^ 8)
  | .Int16 x => decide (-(2 ^ 15) ≤ x ∧ x < 2 ^ 15)
  | .Int32 x => decide (-(2 ^ 31) ≤ x ∧ x < 2 ^ 31)
  | .Int64 x => decide (-(2 ^ 63) ≤ x ∧ x < 2 ^ 63)
  | .UInt16 x => decide (x < 2 ^ 16)
  | .UInt32 x => decide (x < 2 ^ 32)
  | .UInt64 x => decide (x < 2 ^ 64)

/-- Elementwise component of `validItem` for array elements against the
declared tag. -/
def validElems : List MessageItem → Int → Bool
  | [], _ => true
  | x :: xs, t => (x.array_type == t) && validItem x && validElems xs t

end

/-- The element `w` decodes, at the head of any cursor position, to exactly
the value `v` and leaves the rest of the sequence to be decoded unchanged. -/
def DecOne (w : WireElem) (v : MessageItem) : Prop :=
  ∀ rest, from_iter (w :: rest) = Except.map (fun tl => v :: tl) (from_iter rest)

theorem array_type_pos (v : MessageItem) : 0 < v.array_type := by
  cases v <;> simp [MessageItem.array_type, DBUS_TYPE_STRING, DBUS_TYPE_BOOLEAN, DBUS_TYPE_BYTE,
    DBUS_TYPE_INT16, DBUS_TYPE_INT32, DBUS_TYPE_INT64, DBUS_TYPE_UINT16, DBUS_TYPE_UINT32,
    DBUS_TYPE_UINT64, DBUS_TYPE_ARRAY, DBUS_TYPE_VARIANT, DBUS_TYPE_DICT_ENTRY]

theorem decOne_basic {t : Int} {raw : Nat} {v : MessageItem}
    (h : decode_basic t raw = .ok v) : DecOne (.basic t raw) v := by
  intro rest
  simp only [from_iter, h]
  cases h2 : from_iter rest <;> simp [h2, Except.map]

theorem decOne_string (s : String) : DecOne (.string s) (.Str s) := by
  intro rest
  simp only [from_iter]
  cases h2 : from_iter rest <;> simp [h2, Except.map]

theorem DecOne.single {w : WireElem} {v : MessageItem} (h : DecOne w v) :
    from_iter [w] = .ok [v] := by
  have h0 := h []
  simpa [from_iter, Except.map] using h0

theorem DecOne.cons {w : WireElem} {v : MessageItem} {ws : List WireElem}
    {l : List MessageItem} (h : DecOne w v) (h2 : from_iter ws = .ok l) :
    from_iter (w :: ws) = .ok (v :: l) := by
  rw [h ws, h2]
  rfl

theorem decOne_variant {sub : List WireElem} {x : MessageItem} (sig : Option String)
    (h : from_iter sub = .ok [x]) : DecOne (.container DBUS_TYPE_VARIANT sig sub) (.Variant x) := by
  intro rest
  simp only [from_iter, h, DBUS_TYPE_VARIANT, DBUS_TYPE_DICT_ENTRY]
  norm_num
  cases h2 : from_iter rest <;> simp [h2, Except.map]

theorem decOne_dict {sub : List WireElem} {k v : MessageItem} (sig : Option String)
    (h : from_iter sub = .ok [k, v]) :
    DecOne (.container DBUS_TYPE_DICT_ENTRY sig sub) (.DictEntry k v) := by
  intro rest
  simp only [from_iter, h, DBUS_TYPE_DICT_ENTRY]
  norm_num
  cases h2 : from_iter rest <;> simp [h2, Except.map]

theorem decOne_array {sub : List WireElem} {a : List MessageItem} (sig : Option String)
    (h : from_iter sub = .ok a) :
    DecOne (.container DBUS_TYPE_ARRAY sig sub)
      (.Array a (match a with | [] => 0 | x :: _ => x.array_type)) := by
  intro rest
  simp only [from_iter, h, DBUS_TYPE_ARRAY, DBUS_TYPE_DICT_ENTRY, DBUS_TYPE_VARIANT]
  norm_num
  cases h2 : from_iter rest <;> cases a <;> simp [h2, Except.map]

theorem decode_basic_boolean (raw : Nat) :
    decode_basic DBUS_TYPE_BOOLEAN raw = .ok (.Bool (raw % 2 ^ 32 != 0)) := by
  simp [decode_basic]

theorem decode_basic_byte (raw : Nat) :
    decode_basic DBUS_TYPE_BYTE raw = .ok (.Byte (raw % 2 ^ 8)) := by
  simp [decode_basic, DBUS_TYPE_BYTE, DBUS_TYPE_BOOLEAN]

theorem decode_basic_int16 (raw : Nat) :
    decode_basic DBUS_TYPE_INT16 raw = .ok (.Int16 (toSigned 16 (raw % 2 ^ 16))) := by
  simp [decode_basic, DBUS_TYPE_INT16, DBUS_TYPE_BOOLEAN, DBUS_TYPE_BYTE]

theorem decode_basic_int32 (raw : Nat) :
    decode_basic DBUS_TYPE_INT32 raw = .ok (.Int32 (toSigned 32 (raw % 2 ^ 32))) := by
  simp [decode_basic, DBUS_TYPE_INT32, DBUS_TYPE_BOOLEAN, DBUS_TYPE_BYTE, DBUS_TYPE_INT16]

theorem decode_basic_int64 (raw : Nat) :
    decode_basic DBUS_TYPE_INT64 raw = .ok (.Int64 (toSigned 64 (raw % 2 ^ 64))) := by
  simp [decode_basic, DBUS_TYPE_INT64, DBUS_TYPE_BOOLEAN, DBUS_TYPE_BYTE, DBUS_TYPE_INT16,
    DBUS_TYPE_INT32]

theorem decode_basic_uint16 (raw : Nat) :
    decode_basic DBUS_TYPE_UINT16 raw = .ok (.UInt16 (raw % 2 ^ 16)) := by
  simp [decode_basic, DBUS_TYPE_UINT16, DBUS_TYPE_BOOLEAN, DBUS_TYPE_BYTE, DBUS_TYPE_INT16,
    DBUS_TYPE_INT32, DBUS_TYPE_INT64]

theorem decode_basic_uint32 (raw : Nat) :
    decode_basic DBUS_TYPE_UINT32 raw = .ok (.UInt32 (raw % 2 ^ 32)) := by
  simp [decode_basic, DBUS_TYPE_UINT32, DBUS_TYPE_BOOLEAN, DBUS_TYPE_BYTE, DBUS_TYPE_INT16,
    DBUS_TYPE_INT32, DBUS_TYPE_INT64, DBUS_TYPE_UINT16]

theorem decode_basic_uint64 (raw : Nat) :
    decode_basic DBUS_TYPE_UINT64 raw = .ok (.UInt64 (raw % 2 ^ 64)) := by
  simp [decode_basic, DBUS_TYPE_UINT64, DBUS_TYPE_BOOLEAN, DBUS_TYPE_BYTE, DBUS_TYPE_INT16,
    DBUS_TYPE_INT32, DBUS_TYPE_INT64, DBUS_TYPE_UINT16, DBUS_TYPE_UINT32]

theorem wireWidth_boolean : wireWidth DBUS_TYPE_BOOLEAN = 32 := by decide

theorem wireWidth_byte : wireWidth DBUS_TYPE_BYTE = 8 := by decide

theorem wireWidth_int16 : wireWidth DBUS_TYPE_INT16 = 16 := by decide

theorem wireWidth_int32 : wireWidth DBUS_TYPE_INT32 = 32 := by decide

theorem wireWidth_int64 : wireWidth DBUS_TYPE_INT64 = 64 := by decide

theorem wireWidth_uint16 : wireWidth DBUS_TYPE_UINT16 = 16 := by decide

theorem wireWidth_uint32 : wireWidth DBUS_TYPE_UINT32 = 32 := by decide

theorem wireWidth_uint64 : wireWidth DBUS_TYPE_UINT64 = 64 := by decide

theorem validElems_cons {x : MessageItem} {xs : List MessageItem} {t : Int}
    (h : validElems (x :: xs) t = true) :
    x.array_type = t ∧ validItem x = true ∧ validElems xs t = true := by
  simpa [validElems, Bool.and_eq_true, beq_iff_eq, and_assoc] using h

mutual

/-- Every valid value marshals without fault and its wire element decodes back
to exactly the value. -/
theorem rt_append (v : MessageItem) (h : validItem v = true) :
    ∃ w, iter_append v = .ok w ∧ DecOne w v := by
  cases v with
  | Str s => exact ⟨.string s, by simp [iter_append], decOne_string s⟩
  | Bool b =>
    refine ⟨iter_append_basic DBUS_TYPE_BOOLEAN (if b then 1 else 0), by simp [iter_append],
      decOne_basic ?_⟩
    rw [wireWidth_boolean, decode_basic_boolean]
    cases b <;> simp
  | Byte b =>
    have hb : b < 2 ^ 8 := by simpa [validItem] using h
    refine ⟨iter_append_basic DBUS_TYPE_BYTE (b : Int), by simp [iter_append], decOne_basic ?_⟩
    rw [wireWidth_byte, decode_basic_byte]
    congr 1
    congr 1
    omega
  | Int16 x =>
    have hb : -(2 ^ 15) ≤ x ∧ x < 2 ^ 15 := by simpa [validItem] using h
    refine ⟨iter_append_basic DBUS_TYPE_INT16 x, by simp [iter_append], decOne_basic ?_⟩
    rw [wireWidth_int16, decode_basic_int16]
    congr 1
    congr 1
    simp only [toSigned]
    split <;> omega
  | Int32 x =>
    have hb : -(2 ^ 31) ≤ x ∧ x < 2 ^ 31 := by simpa [validItem] using h
    refine ⟨iter_append_basic DBUS_TYPE_INT32 x, by simp [iter_append], decOne_basic ?_⟩
    rw [wireWidth_int32, decode_basic_int32]
    congr 1
    congr 1
    simp only [toSigned]
    split <;> omega
  | Int64 x =>
    have hb : -(2 ^ 63) ≤ x ∧ x < 2 ^ 63 := by simpa [validItem] using h
    refine ⟨iter_append_basic DBUS_TYPE_INT64 x, by simp [iter_append], decOne_basic ?_⟩
    rw [wireWidth_int64, decode_basic_int64]
    congr 1
    congr 1
    simp only [toSigned]
    split <;> omega
  | UInt16 x =>
    have hb : x < 2 ^ 16 := by simpa [validItem] using h
    refine ⟨iter_append_basic DBUS_TYPE_UINT16 (x : Int), by simp [iter_append], decOne_basic ?_⟩
    rw [wireWidth_uint16, decode_basic_uint16]
    congr 1
    congr 1
    omega
  | UInt32 x =>
    have hb : x < 2 ^ 32 := by simpa [validItem] using h
    refine ⟨iter_append_basic DBUS_TYPE_UINT32 (x : Int), by simp [iter_append], decOne_basic ?_⟩
    rw [wireWidth_uint32, decode_basic_uint32]
    congr 1
    congr 1
    omega
  | UInt64 x =>
    have hb : x < 2 ^ 64 := by simpa [validItem] using h
    refine ⟨iter_append_basic DBUS_TYPE_UINT64 (x : Int), by simp [iter_append], decOne_basic ?_⟩
    rw [wireWidth_uint64, decode_basic_uint64]
    congr 1
    congr 1
    omega
  | Variant inner =>
    have hv : validItem inner = true := by simpa [validItem] using h
    obtain ⟨w, hw, hdec⟩ := rt_append inner hv
    refine ⟨.container DBUS_TYPE_VARIANT (some (tagString inner.array_type)) [w], ?_, ?_⟩
    · simp [iter_append, hw]
    · exact decOne_variant _ hdec.single
  | DictEntry k v =>
    have hv : validItem k = true ∧ validItem v = true := by
      simpa [validItem, Bool.and_eq_true] using h
    obtain ⟨wk, hwk, hdeck⟩ := rt_append k hv.1
    obtain ⟨wv, hwv, hdecv⟩ := rt_append v hv.2
    refine ⟨.container DBUS_TYPE_DICT_ENTRY none [wk, wv], ?_, ?_⟩
    · simp [iter_append, hwk, hwv]
    · exact decOne_dict _ (hdeck.cons hdecv.single)
  | Array elems t =>
    have h3 : 0 < t ∧ elems.isEmpty = false ∧ validElems elems t = true := by
      simpa [validItem, Bool.and_eq_true, and_assoc] using h
    obtain ⟨ht, hne, hve⟩ := h3
    obtain ⟨ws, hws, hfrom⟩ := rt_items elems t hve
    refine ⟨.container DBUS_TYPE_ARRAY (some (tagString t)) ws, ?_, ?_⟩
    · simp [iter_append, iter_append_array, atypeOf, hws, show ¬t ≤ 0 by omega]
    · have hd := decOne_array (a := elems) (some (tagString t)) hfrom
      obtain ⟨x, xs, rfl⟩ : ∃ x xs, elems = x :: xs := by
        cases elems with
        | nil => simp at hne
        | cons x xs => exact ⟨x, xs, rfl⟩
      have hx : x.array_type = t := (validElems_cons hve).1
      simpa [hx] using hd

/-- Elementwise form of `rt_append` for the members of a valid array. -/
theorem rt_items (l : List MessageItem) (t : Int) (h : validElems l t = true) :
    ∃ ws, iter_append_items l t = .ok ws ∧ from_iter ws = .ok l := by
  cases l with
  | nil => exact ⟨[], by simp [iter_append_items], by simp [from_iter]⟩
  | cons x xs =>
    obtain ⟨hx, hvx, hvxs⟩ := validElems_cons h
    obtain ⟨w, hw, hdec⟩ := rt_append x hvx
    obtain ⟨ws, hws, hfrom⟩ := rt_items xs t hvxs
    refine ⟨w :: ws, ?_, hdec.cons hfrom⟩
    simp [iter_append_items, hx, hw, hws]

end

theorem iter_append_items_mixed (elems : List MessageItem) (t : Int) (ht : 0 < t)
    (h : ∃ e ∈ elems, e.array_type ≠ t) :
    ∃ s, iter_append_items elems t = .error s := by
  induction elems with
  | nil => simp at h
  | cons x xs ih =>
    by_cases hx : x.array_type = t
    · obtain ⟨e, he, het⟩ := h
      have hxs : ∃ e ∈ xs, e.array_type ≠ t := by
        cases he with
        | head => exact absurd hx het
        | tail _ hmem => exact ⟨e, hmem, het⟩
      cases hw : iter_append x with
      | error s => exact ⟨s, by simp [iter_append_items, hx, hw]⟩
      | ok w =>
        obtain ⟨s, hs⟩ := ih hxs
        exact ⟨s, by simp [iter_append_items, hx, hw, hs]⟩
    · refine ⟨"assertion failed: t < 0 || item.array_type() == t", ?_⟩
      simp [iter_append_items, hx, show ¬t < 0 by omega]

theorem atypeOf_zero_ok (x : MessageItem) (xs : List MessageItem) :
    ∃ a, atypeOf (x :: xs) 0 = .ok a := by
  cases x <;> simp [atypeOf]

/-- C2 (amended): with a positive declared element type, an array containing an
element of a different tag fails the encode-time assertion; with declared type
0, encoding any array fails (the assertion compares every element's tag to 0
itself, and the empty array faults when inspecting its first element); with a
negative declared type such as -1, no homogeneity assertion is performed and a
mixed-tag array encodes without fault, the first element's tag being used only
for the container's signature string. -/
theorem c2_array_homogeneity :
    (∀ elems t, 0 < t → (∃ e ∈ elems, e.array_type ≠ t) →
      ∃ s, iter_append_array elems t = .error s) ∧
    (∀ elems, ∃ s, iter_append_array elems 0 = .error s) ∧
    iter_append_array [.Byte 1, .Bool true] (-1) =
      .ok (.container DBUS_TYPE_ARRAY (some (tagString DBUS_TYPE_BYTE))
        [.basic DBUS_TYPE_BYTE 1, .basic DBUS_TYPE_BOOLEAN 1]) := by
  refine ⟨?_, ?_, ?_⟩
  · intro elems t ht h
    obtain ⟨s, hs⟩ := iter_append_items_mixed elems t ht h
    refine ⟨s, ?_⟩
    have : atypeOf elems t = .ok (tagString t) := by simp [atypeOf, show ¬t ≤ 0 by omega]
    simp [iter_append_array, this, hs]
  · intro elems
    cases elems with
    | nil =>
      exact ⟨"index out of bounds: the len is 0 but the index is 0",
        by simp [iter_append_array, atypeOf]⟩
    | cons x xs =>
      obtain ⟨a, ha⟩ := atypeOf_zero_ok x xs
      refine ⟨"assertion failed: t < 0 || item.array_type() == t", ?_⟩
      have hxt : ¬x.array_type = 0 := by have := array_type_pos x; omega
      simp [iter_append_array, ha, iter_append_items, hxt]
  · simp [iter_append, iter_append_array, iter_append_items, atypeOf, iter_append_basic,
      MessageItem.array_type, wireWidth, DBUS_TYPE_BYTE, DBUS_TYPE_BOOLEAN, DBUS_TYPE_INT16,
      DBUS_TYPE_UINT16, DBUS_TYPE_INT32, DBUS_TYPE_UINT32]

/-- Witness for C2: the first part at the concrete mixed array [Byte 1, Bool
true] with declared type y (byte), the second at [Byte 1]. -/
theorem c2_array_homogeneity_witness :
    (∃ s, iter_append_array [.Byte 1, .Bool true] DBUS_TYPE_BYTE = .error s) ∧
    (∃ s, iter_append_array [.Byte 1] 0 = .error s) :=
  ⟨c2_array_homogeneity.1 [.Byte 1, .Bool true] DBUS_TYPE_BYTE (by decide)
      ⟨.Bool true, by simp, by decide⟩,
    c2_array_homogeneity.2.1 [.Byte 1]⟩

/-- C2 counterexample: the claim asserts that with the "unspecified" sentinel
declared element type (-1, the sentinel callers use) a mixed-tag array also
fails; in fact it encodes without fault. -/
theorem c2_counterexample :
    iter_append (.Array [.Byte 1, .Bool true] (-1)) =
      .ok (.container DBUS_TYPE_ARRAY (some (tagString DBUS_TYPE_BYTE))
        [.basic DBUS_TYPE_BYTE 1, .basic DBUS_TYPE_BOOLEAN 1]) := by
  simp [iter_append, iter_append_array, iter_append_items, atypeOf, iter_append_basic,
    MessageItem.array_type, wireWidth, DBUS_TYPE_BYTE, DBUS_TYPE_BOOLEAN, DBUS_TYPE_INT16,
    DBUS_TYPE_UINT16, DBUS_TYPE_INT32, DBUS_TYPE_UINT32]



/-- C1 (amended): for every value in which each array is non-empty and carries
a positive declared element type equal to each element's tag (and scalar
payloads fit their machine widths), marshaling succeeds and unmarshaling the
resulting element yields exactly the original value. -/
theorem c1_decode_encode_roundtrip (v : MessageItem) (h : validItem v = true) :
    ∃ w, iter_append v = .ok w ∧ from_iter [w] = .ok [v] := by
  obtain ⟨w, hw, hdec⟩ := rt_append v h
  exact ⟨w, hw, hdec.single⟩

/-- Witness for C1 at a doubly nested value: an array of variants whose inner
value is an array of bytes. -/
theorem c1_decode_encode_roundtrip_witness :
    ∃ w,
      iter_append (.Array [.Variant (.Array [.Byte 3] DBUS_TYPE_BYTE)] DBUS_TYPE_VARIANT) =
        .ok w ∧
      from_iter [w] =
        .ok [.Array [.Variant (.Array [.Byte 3] DBUS_TYPE_BYTE)] DBUS_TYPE_VARIANT] :=
  c1_decode_encode_roundtrip _
    (by simp [validItem, validElems, MessageItem.array_type, DBUS_TYPE_BYTE, DBUS_TYPE_VARIANT])

/-- C1 counterexample: a value constructible by the model on which
decode(encode(v)) differs structurally from v. Encoding the array [Byte 1]
with the unspecified declared type -1 succeeds, but decoding the result yields
the array with declared type y (121, the first element's tag), which is not
structurally equal to the original. -/
theorem c1_counterexample :
    iter_append (.Array [.Byte 1] (-1)) =
      .ok (.container DBUS_TYPE_ARRAY (some (tagString DBUS_TYPE_BYTE))
        [.basic DBUS_TYPE_BYTE 1]) ∧
    from_iter
        [.container DBUS_TYPE_ARRAY (some (tagString DBUS_TYPE_BYTE)) [.basic DBUS_TYPE_BYTE 1]] =
      .ok [.Array [.Byte 1] DBUS_TYPE_BYTE] ∧
    MessageItem.Array [.Byte 1] DBUS_TYPE_BYTE ≠ MessageItem.Array [.Byte 1] (-1) := by
  refine ⟨?_, ?_, ?_⟩
  · simp [iter_append, iter_append_array, iter_append_items, atypeOf, iter_append_basic,
      MessageItem.array_type, wireWidth, DBUS_TYPE_BYTE, DBUS_TYPE_BOOLEAN, DBUS_TYPE_INT16,
      DBUS_TYPE_UINT16, DBUS_TYPE_INT32, DBUS_TYPE_UINT32]
  · simp [from_iter, decode_basic, MessageItem.array_type, DBUS_TYPE_BYTE, DBUS_TYPE_BOOLEAN,
      DBUS_TYPE_ARRAY, DBUS_TYPE_DICT_ENTRY, DBUS_TYPE_VARIANT]
  · simp [DBUS_TYPE_BYTE]

/-- C5: decoding a dict-entry container whose contents decode to any number of
elements other than two faults with the malformed-dict-entry error; exactly
two elements succeed and produce DictEntry(key, value) in decoded order. -/
theorem c5_dict_entry_arity :
    (∀ sig sub l rest, from_iter sub = .ok l → l.length ≠ 2 →
      from_iter (.container DBUS_TYPE_DICT_ENTRY sig sub :: rest) =
        .error "DBus dict entry error") ∧
    (∀ sig sub k v rest tl, from_iter sub = .ok [k, v] → from_iter rest = .ok tl →
      from_iter (.container DBUS_TYPE_DICT_ENTRY sig sub :: rest) =
        .ok (.DictEntry k v :: tl)) := by
  constructor
  · intro sig sub l rest h hl
    simp only [from_iter, h, DBUS_TYPE_DICT_ENTRY]
    norm_num
    match l, hl with
    | [], _ => rfl
    | [a], _ => rfl
    | [a, b], hl => exact absurd rfl hl
    | a :: b :: c :: l2, _ => rfl
  · intro sig sub k v rest tl h h2
    exact (decOne_dict sig h).cons h2

/-- Witness for C5: a one-element dict entry container faults; a two-element
one decodes to the dict entry. -/
theorem c5_dict_entry_arity_witness :
    from_iter [.container DBUS_TYPE_DICT_ENTRY none [.basic DBUS_TYPE_BYTE 7]] =
      .error "DBus dict entry error" ∧
    from_iter [.container DBUS_TYPE_DICT_ENTRY none [.basic DBUS_TYPE_BYTE 7, .string "x"]] =
      .ok [.DictEntry (.Byte 7) (.Str "x")] := by
  constructor
  · exact c5_dict_entry_arity.1 none [.basic DBUS_TYPE_BYTE 7] [.Byte 7] []
      (by simp [from_iter, decode_basic, DBUS_TYPE_BYTE, DBUS_TYPE_BOOLEAN]) (by simp)
  · exact c5_dict_entry_arity.2 none [.basic DBUS_TYPE_BYTE 7, .string "x"] (.Byte 7) (.Str "x")
      [] []
      (by simp [from_iter, decode_basic, DBUS_TYPE_BYTE, DBUS_TYPE_BOOLEAN])
      (by simp [from_iter])

/-- C6: decoding a variant container whose contents decode to zero or more
than one element faults with the malformed-variant error; exactly one element
succeeds and produces Variant of it. -/
theorem c6_variant_arity :
    (∀ sig sub l rest, from_iter sub = .ok l → l.length ≠ 1 →
      from_iter (.container DBUS_TYPE_VARIANT sig sub :: rest) = .error "DBus variant error") ∧
    (∀ sig sub x rest tl, from_iter sub = .ok [x] → from_iter rest = .ok tl →
      from_iter (.container DBUS_TYPE_VARIANT sig sub :: rest) = .ok (.Variant x :: tl)) := by
  constructor
  · intro sig sub l rest h hl
    simp only [from_iter, h, DBUS_TYPE_VARIANT, DBUS_TYPE_DICT_ENTRY]
    norm_num
    match l, hl with
    | [], _ => rfl
    | [a], hl => exact absurd rfl hl
    | a :: b :: l2, _ => rfl
  · intro sig sub x rest tl h h2
    exact (decOne_variant sig h).cons h2

/-- Witness for C6: an empty variant container faults; a one-element variant
container decodes to the variant. -/
theorem c6_variant_arity_witness :
    from_iter [.container DBUS_TYPE_VARIANT none []] = .error "DBus variant error" ∧
    from_iter [.container DBUS_TYPE_VARIANT none [.basic DBUS_TYPE_BYTE 9]] =
      .ok [.Variant (.Byte 9)] := by
  constructor
  · exact c6_variant_arity.1 none [] [] [] (by simp [from_iter]) (by simp)
  · exact c6_variant_arity.2 none [.basic DBUS_TYPE_BYTE 9] (.Byte 9) [] []
      (by simp [from_iter, decode_basic, DBUS_TYPE_BYTE, DBUS_TYPE_BOOLEAN]) (by simp [from_iter])

/-- C7: decoding an empty array container succeeds, yielding Array([], 0) with
0 the unspecified-type sentinel; decoding a non-empty array container sets the
produced array's declared element type to the first decoded element's tag. -/
theorem c7_array_decode :
    (∀ sig rest tl, from_iter rest = .ok tl →
      from_iter (.container DBUS_TYPE_ARRAY sig [] :: rest) = .ok (.Array [] 0 :: tl)) ∧
    (∀ sig sub x xs rest tl, from_iter sub = .ok (x :: xs) → from_iter rest = .ok tl →
      from_iter (.container DBUS_TYPE_ARRAY sig sub :: rest) =
        .ok (.Array (x :: xs) x.array_type :: tl)) := by
  constructor
  · intro sig rest tl h2
    exact (decOne_array sig (by simp [from_iter])).cons h2
  · intro sig sub x xs rest tl h h2
    exact (decOne_array sig h).cons h2

/-- Witness for C7: an empty array container decodes to Array([], 0); an array
container holding one boolean decodes to an array with declared type b (98). -/
theorem c7_array_decode_witness :
    from_iter [.container DBUS_TYPE_ARRAY none []] = .ok [.Array [] 0] ∧
    from_iter [.container DBUS_TYPE_ARRAY none [.basic DBUS_TYPE_BOOLEAN 1]] =
      .ok [.Array [.Bool true] DBUS_TYPE_BOOLEAN] := by
  constructor
  · exact c7_array_decode.1 none [] [] (by simp [from_iter])
  · have := c7_array_decode.2 none [.basic DBUS_TYPE_BOOLEAN 1] (.Bool true) [] [] []
      (by simp [from_iter, decode_basic]) (by simp [from_iter])
    simpa [MessageItem.array_type] using this

/-- C8: encoding an array with no elements and an unspecified (non-positive)
declared element type faults: there is no first element from which to infer
the signature, and `a[0]` is out of bounds. -/
theorem c8_empty_unspecified_array (t : Int) (h : t ≤ 0) :
    iter_append_array [] t = .error "index out of bounds: the len is 0 but the index is 0" := by
  simp [iter_append_array, atypeOf, h]

/-- Witness for C8 at the sentinel -1 used by callers. -/
theorem c8_empty_unspecified_array_witness :
    iter_append_array [] (-1) =
      .error "index out of bounds: the len is 0 but the index is 0" :=
  c8_empty_unspecified_array (-1) (by decide)

/-- C9: extracting the items of a message with an empty body yields the empty
sequence without error, and on any body the extraction is exactly the decoder
run over the body. -/
theorem c9_get_items :
    get_items [] = .ok [] ∧ ∀ body, get_items body = from_iter body := by
  constructor
  · simp [get_items]
  · intro body
    cases body <;> simp [get_items, from_iter]

/-- C10: every scalar decode truncates the 64-bit fetched value to the
variant's width modulo 2^w, with two's-complement reinterpretation for the
signed variants; a boolean decodes to true exactly when the low 32 bits are
nonzero — witnessed by the fetched value 2 decoding to true. -/
theorem c10_scalar_truncation :
    (∀ raw, from_iter [.basic DBUS_TYPE_BOOLEAN raw] = .ok [.Bool (raw % 2 ^ 32 != 0)]) ∧
    (∀ raw, from_iter [.basic DBUS_TYPE_BYTE raw] = .ok [.Byte (raw % 2 ^ 8)]) ∧
    (∀ raw, from_iter [.basic DBUS_TYPE_INT16 raw] = .ok [.Int16 (toSigned 16 (raw % 2 ^ 16))]) ∧
    (∀ raw, from_iter [.basic DBUS_TYPE_UINT16 raw] = .ok [.UInt16 (raw % 2 ^ 16)]) ∧
    (∀ raw, from_iter [.basic DBUS_TYPE_INT32 raw] = .ok [.Int32 (toSigned 32 (raw % 2 ^ 32))]) ∧
    (∀ raw, from_iter [.basic DBUS_TYPE_UINT32 raw] = .ok [.UInt32 (raw % 2 ^ 32)]) ∧
    (∀ raw, from_iter [.basic DBUS_TYPE_INT64 raw] = .ok [.Int64 (toSigned 64 (raw % 2 ^ 64))]) ∧
    (∀ raw, from_iter [.basic DBUS_TYPE_UINT64 raw] = .ok [.UInt64 (raw % 2 ^ 64)]) ∧
    from_iter [.basic DBUS_TYPE_BOOLEAN 2] = .ok [.Bool true] := by
  refine ⟨fun raw => (decOne_basic (decode_basic_boolean raw)).single,
    fun raw => (decOne_basic (decode_basic_byte raw)).single,
    fun raw => (decOne_basic (decode_basic_int16 raw)).single,
    fun raw => (decOne_basic (decode_basic_uint16 raw)).single,
    fun raw => (decOne_basic (decode_basic_int32 raw)).single,
    fun raw => (decOne_basic (decode_basic_uint32 raw)).single,
    fun raw => (decOne_basic (decode_basic_int64 raw)).single,
    fun raw => (decOne_basic (decode_basic_uint64 raw)).single, ?_⟩
  have h := (decOne_basic (decode_basic_boolean 2)).single
  simpa using h



theorem deliver_classify (r : Bool) (q : List ConnectionItem) (m : Msg) :
    deliver r q m = q ++ (classify r m).toList := by
  obtain ⟨k, i⟩ := m
  cases k <;> cases r <;>
    simp [deliver, filter_message_cb, object_path_message_cb, classify, Option.toList]

/-- C3: classification of inbound messages. A Signal-kind message is pushed as
an inbound Signal item by the filter callback; a MethodCall-kind message
(declined by the filter, delivered to the registered object-path callback) is
pushed as an inbound MethodCall item; MethodReturn- and Error-kind messages
are declined by the filter and never queued, so over any arrival sequence the
dispatch queue holds exactly the Signal/MethodCall items in arrival order and
no item stemming from a MethodReturn or Error message. -/
theorem c3_inbound_classification :
    (∀ r q m, m.kind = MessageType.Signal → deliver r q m = q ++ [.Signal m]) ∧
    (∀ q m, m.kind = MessageType.MethodCall → deliver true q m = q ++ [.MethodCall m]) ∧
    (∀ r q m, m.kind = MessageType.MethodReturn ∨ m.kind = MessageType.Error →
      (filter_message_cb q m).2 = .NotYetHandled ∧ deliver r q m = q) ∧
    (∀ r q ms, deliverAll r q ms = q ++ ms.filterMap (classify r)) := by
  refine ⟨?_, ?_, ?_, ?_⟩
  · intro r q m hk
    simp [deliver_classify, classify, hk]
  · intro q m hk
    simp [deliver_classify, classify, hk]
  · intro r q m hk
    constructor
    · cases hk with
      | inl h => simp [filter_message_cb, h]
      | inr h => simp [filter_message_cb, h]
    · cases hk with
      | inl h => simp [deliver_classify, classify, h]
      | inr h => simp [deliver_classify, classify, h]
  · intro r q ms
    induction ms generalizing q with
    | nil => simp [deliverAll]
    | cons m ms ih =>
      have step : deliverAll r q (m :: ms) = deliverAll r (deliver r q m) ms := rfl
      rw [step, ih, deliver_classify]
      cases h : classify r m <;> simp [List.filterMap_cons, h, Option.toList]

/-- Witness for C3 at concrete messages of each kind. -/
theorem c3_inbound_classification_witness :
    deliver true [] ⟨MessageType.Signal, 0⟩ = [.Signal ⟨MessageType.Signal, 0⟩] ∧
    deliver true [] ⟨MessageType.MethodCall, 1⟩ = [.MethodCall ⟨MessageType.MethodCall, 1⟩] ∧
    deliver true [] ⟨MessageType.MethodReturn, 2⟩ = [] ∧
    deliver true [] ⟨MessageType.Error, 3⟩ = [] := by
  refine ⟨?_, ?_, ?_, ?_⟩
  · exact c3_inbound_classification.1 true [] ⟨MessageType.Signal, 0⟩ rfl
  · exact c3_inbound_classification.2.1 [] ⟨MessageType.MethodCall, 1⟩ rfl
  · exact (c3_inbound_classification.2.2.1 true [] ⟨MessageType.MethodReturn, 2⟩ (Or.inl rfl)).2
  · exact (c3_inbound_classification.2.2.1 true [] ⟨MessageType.Error, 3⟩ (Or.inr rfl)).2

/-- C4: one poll of the connection event iterator. With a non-empty queue the
front item is popped and yielded, independently of the blocking step's
outcome (it is not consulted); with an empty queue, the blocking step runs
and the first item it pushed is yielded; if it pushed nothing and reported
the connection closed, the iterator yields no more items; if it pushed
nothing but the connection is alive, a single Nothing (empty tick) is
yielded and the iterator remains pollable with an intact empty queue. -/
theorem c4_next_poll :
    (∀ i rest stepPush alive, connection_items_next (i :: rest) stepPush alive = (some i, rest)) ∧
    (∀ i rest alive, connection_items_next [] (i :: rest) alive = (some i, rest)) ∧
    connection_items_next [] [] false = (none, []) ∧
    connection_items_next [] [] true = (some .Nothing, []) := by
  exact ⟨fun i rest stepPush alive => rfl, fun i rest alive => rfl, rfl, rfl⟩

end DBus
